import Mathlib

/-
  Verification development for the MonitorUI dashboard (src/Dashboard.py).

  The Python module is embedded shallowly:
  - JSON values are the inductive `Json`; Python floats that the code only
    compares, negates and takes absolute values of are modelled as `Rat`.
  - A position record, of which the code reads only the keys "id",
    "active_pos" and "pair" (via dict.get), is the structure `Position`
    with one `Option` field per key, `none` meaning the key is absent.
  - Network effects are an oracle `http : CloseBody → Except String Json`
    standing for the POST to the exit endpoint: `Except.error e` models any
    raised requests exception (connection failure, timeout, the
    raise_for_status on a non-2xx status, an undecodable body), with `e`
    the text str(e) of the exception; `Except.ok j` models a 2xx response
    whose body decoded to `j`.  Each function additionally returns the
    list of request bodies it handed to the oracle, so that "no network
    call" is the statement that this trace is empty.
-/

namespace MonitorUI

/-
  HMAC-SHA256, the primitive behind getSignature.  The Python code calls
  hashlib.sha256 and hmac.new from the standard library; those are
  modelled here from their standards (FIPS 180-4 and RFC 2104), with
  32-bit words as Nat reduced mod 2^32.  The model was checked against
  the published SHA-256 and HMAC-SHA256 test vectors.
-/

/-- Reduction of a machine word to 32 bits. -/
def w32 (n : Nat) : Nat := n % 4294967296

/-- Right rotation of a 32-bit word by n bits. -/
def rotr32 (n x : Nat) : Nat := w32 ((x >>> n) ||| (x <<< (32 - n)))

/-- Bitwise complement within 32 bits. -/
def not32 (x : Nat) : Nat := x ^^^ 4294967295

def sha_ch (x y z : Nat) : Nat := (x &&& y) ^^^ (not32 x &&& z)

def sha_maj (x y z : Nat) : Nat := (x &&& y) ^^^ (x &&& z) ^^^ (y &&& z)

def bigSigma0 (x : Nat) : Nat := rotr32 2 x ^^^ rotr32 13 x ^^^ rotr32 22 x

def bigSigma1 (x : Nat) : Nat := rotr32 6 x ^^^ rotr32 11 x ^^^ rotr32 25 x

def smallSigma0 (x : Nat) : Nat := rotr32 7 x ^^^ rotr32 18 x ^^^ (x >>> 3)

def smallSigma1 (x : Nat) : Nat := rotr32 17 x ^^^ rotr32 19 x ^^^ (x >>> 10)

/-- The 64 SHA-256 round constants (FIPS 180-4), written in decimal. -/
def sha256K : List Nat :=
  [1116352408, 1899447441, 3049323471, 3921009573,
   961987163, 1508970993, 2453635748, 2870763221,
   3624381080, 310598401, 607225278, 1426881987,
   1925078388, 2162078206, 2614888103, 3248222580,
   3835390401, 4022224774, 264347078, 604807628,
   770255983, 1249150122, 1555081692, 1996064986,
   2554220882, 2821834349, 2952996808, 3210313671,
   3336571891, 3584528711, 113926993, 338241895,
   666307205, 773529912, 1294757372, 1396182291,
   1695183700, 1986661051, 2177026350, 2456956037,
   2730485921, 2820302411, 3259730800, 3345764771,
   3516065817, 3600352804, 4094571909, 275423344,
   430227734, 506948616, 659060556, 883997877,
   958139571, 1322822218, 1537002063, 1747873779,
   1955562222, 2024104815, 2227730452, 2361852424,
   2428436474, 2756734187, 3204031479, 3329325298]

/-- The SHA-256 initial hash value, written in decimal. -/
def sha256H0 : List Nat :=
  [1779033703, 3144134277, 1013904242, 2773480762,
   1359893119, 2600822924, 528734635, 1541459225]

/-- Extend the 16 words of a block to the 64-entry message schedule:
each step appends w[t] computed from the last 16 entries. -/
def extendSchedule : Nat → Array Nat → Array Nat
  | 0, ws => ws
  | n + 1, ws =>
    let t := ws.size
    let wt := w32 (smallSigma1 (ws.getD (t - 2) 0) + ws.getD (t - 7) 0 +
                   smallSigma0 (ws.getD (t - 15) 0) + ws.getD (t - 16) 0)
    extendSchedule n (ws.push wt)

/-- One round of the SHA-256 compression function on the working state
[a, b, c, d, e, f, g, h]. -/
def sha256Round (st : List Nat) (k w : Nat) : List Nat :=
  match st with
  | [a, b, c, d, e, f, g, h] =>
    let t1 := w32 (h + bigSigma1 e + sha_ch e f g + k + w)
    let t2 := w32 (bigSigma0 a + sha_maj a b c)
    [w32 (t1 + t2), a, b, c, w32 (d + t1), e, f, g]
  | other => other

/-- Process one 16-word block, updating the 8-word hash state. -/
def sha256Block (h : List Nat) (block : List Nat) : List Nat :=
  let ws := extendSchedule 48 block.toArray
  let st := (sha256K.zip ws.toList).foldl (fun st kw => sha256Round st kw.1 kw.2) h
  (h.zip st).map (fun p => w32 (p.1 + p.2))

/-- SHA-256 padding: append 0x80, zeros to 56 mod 64 bytes, then the
message length in bits as 8 big-endian bytes. -/
def sha256Pad (msg : List Nat) : List Nat :=
  let len := msg.length
  let padZeros := (119 - len % 64) % 64
  msg ++ 0x80 :: List.replicate padZeros 0 ++
    (List.range 8).map (fun i => ((len * 8) >>> (8 * (7 - i))) % 256)

/-- Group bytes into big-endian 32-bit words. -/
def bytesToWords : List Nat → List Nat
  | b0 :: b1 :: b2 :: b3 :: rest => (((b0 * 256 + b1) * 256 + b2) * 256 + b3) :: bytesToWords rest
  | _ => []

/-- Split a big-endian 32-bit word into 4 bytes. -/
def wordToBytes (w : Nat) : List Nat :=
  [w >>> 24 % 256, w >>> 16 % 256, w >>> 8 % 256, w % 256]

/-- SHA-256 of a byte sequence (FIPS 180-4), as a 32-byte sequence. -/
def sha256 (msg : List Nat) : List Nat :=
  let ws := bytesToWords (sha256Pad msg)
  let nblocks := ws.length / 16
  let hFinal := (List.range nblocks).foldl
    (fun h i => sha256Block h ((ws.drop (16 * i)).take 16)) sha256H0
  hFinal.foldr (fun w acc => wordToBytes w ++ acc) []

/-- HMAC-SHA256 (RFC 2104): the key is hashed when longer than the 64-byte
block, zero-padded to the block size, and combined with the inner and
outer pad bytes. -/
def hmacSha256 (key msg : List Nat) : List Nat :=
  let k0 := if key.length > 64 then sha256 key else key
  let kPadded := k0 ++ List.replicate (64 - k0.length) 0
  let innerKey := kPadded.map (fun b => b ^^^ 0x36)
  let outerKey := kPadded.map (fun b => b ^^^ 0x5c)
  sha256 (outerKey ++ sha256 (innerKey ++ msg))

/-- The sixteen lowercase hexadecimal digit characters. -/
def hexDigits : List Char := "0123456789abcdef".data

/-- The character for one hex digit value. -/
def hexChar (n : Nat) : Char := hexDigits.getD n '0'

/-- Two lowercase hex characters for one byte. -/
def byteToHex (b : Nat) : List Char := [hexChar (b / 16 % 16), hexChar (b % 16)]

/-- Lowercase hexadecimal rendering of a byte sequence, modelling Python
hexdigest(). -/
def hexdigest (bs : List Nat) : String :=
  String.mk (bs.foldr (fun b acc => byteToHex b ++ acc) [])

/-- UTF-8 bytes of a string, modelling Python str.encode() and
bytes(s, encoding = utf-8). -/
def strBytes (s : String) : List Nat :=
  s.toUTF8.toList.map (fun b => b.toNat)

/-- Embedding of getSignature (Dashboard.py lines 14-19):
hmac.new(bytes(secret, utf-8), json_body.encode(), hashlib.sha256).hexdigest(). -/
def getSignature (json_body : String) (secret : String) : String :=
  hexdigest (hmacSha256 (strBytes secret) (strBytes json_body))

/-- JSON values as decoded by resp.json() and built for request bodies. -/
inductive Json where
  | null
  | bool (b : Bool)
  | num (q : Rat)
  | str (s : String)
  | arr (elems : List Json)
  | obj (fields : List (String × Json))

/-- Truthiness of a Python value, as used by `if response_json.get('message')`
and by `if not position_id`. -/
def jsonTruthy : Json → Bool
  | .null => false
  | .bool b => b
  | .num q => q != 0
  | .str s => !s.isEmpty
  | .arr l => !l.isEmpty
  | .obj l => !l.isEmpty

/-- Truthiness of `d.get(k)`: a missing key yields None, which is falsy. -/
def optTruthy : Option Json → Bool
  | none => false
  | some j => jsonTruthy j

/-- Lookup in a decoded JSON object, modelling Python dict.get(k). -/
def dictGet (fields : List (String × Json)) (k : String) : Option Json :=
  fields.lookup k

/-- The request body built by close_position_by_position_id (Dashboard.py
lines 88-96).  The code serializes `quantity` with str(); the numeric value
is kept here, serialization being part of the transport the oracle models. -/
structure CloseBody where
  timestamp : Int
  id : String
  symbol : String
  side : String
  type : String
  quantity : Rat
  reduceOnly : Bool
deriving DecidableEq

/-- The four result dictionaries close_position_by_position_id can return,
one constructor per "status" value, carrying the other key of that dict. -/
inductive CloseResult where
  | paper_trade (position_id : String)
  | success (details : Json)
  | fail (details : Json)
  | error (err : String)

/-- A position record as read by close_all_positions: only the keys "id",
"active_pos" and "pair" are consulted, each possibly absent. -/
structure Position where
  id : Option String
  active_pos : Option Rat
  pair : Option String
deriving DecidableEq

/-- The body dictionary built by close_position_by_position_id (Dashboard.py
lines 88-96): field for field the payload of the exit request. -/
def mkCloseBody (BUY_OR_SELL : String) (quantity : Rat)
    (position_id symbol : String) (timestamp : Int) : CloseBody :=
  { timestamp := timestamp
    id := position_id
    symbol := symbol
    side := BUY_OR_SELL
    type := "MARKET"
    quantity := quantity
    reduceOnly := true }

/-- Embedding of close_position_by_position_id (Dashboard.py lines 61-115).
Returns the result value together with the trace of bodies POSTed to the
exit endpoint.  The api_key, api_secret and url arguments feed the signing
and transport that the oracle `http` models, so they do not occur in the
result.  A 2xx response that is not a JSON object makes
`response_json.get('message')` raise AttributeError, which the except
clause turns into a status-error result. -/
def close_position_by_position_id
    (BUY_OR_SELL : String) (quantity : Rat) (paper_trade : Bool)
    (api_key api_secret url : String)
    (position_id : String) (symbol : String)
    (timestamp : Int) (http : CloseBody → Except String Json) :
    CloseResult × List CloseBody :=
  if paper_trade then
    (.paper_trade position_id, [])
  else
    let body : CloseBody := mkCloseBody BUY_OR_SELL quantity position_id symbol timestamp
    match http body with
    | .error e => (.error e, [body])
    | .ok response_json =>
      match response_json with
      | .obj fields =>
        if optTruthy (dictGet fields "message") then
          (.success (.obj fields), [body])
        else
          (.fail (.obj fields), [body])
      | _ => (.error "AttributeError: object has no attribute get", [body])

/-- Embedding of Python str.startswith: the characters of the candidate
prefix are an initial segment of the characters of the string. -/
def py_startswith (s pre : String) : Bool :=
  pre.data.isPrefixOf s.data

/-- Symbol extraction (Dashboard.py line 145):
symbol = pair[2:] if pair.startswith("B-") else pair. -/
def extract_symbol (pair : String) : String :=
  if py_startswith pair "B-" then pair.drop 2 else pair

/-- One iteration of the close_all_positions loop (Dashboard.py lines
137-167) for a single position record: `none` when the loop continues
without closing (missing or empty id, or zero active_pos), otherwise the
position_id together with the close_position_by_position_id call made
for it. -/
def close_all_step (url api_key api_secret : String) (paper_trade : Bool)
    (timestamp : Int) (http : CloseBody → Except String Json)
    (pos : Position) : Option (String × (CloseResult × List CloseBody)) :=
  let position_id := pos.id
  let active_pos := (pos.active_pos).getD 0
  let pair := (pos.pair).getD ""
  match position_id with
  | none => none
  | some pid =>
    if pid = "" then none
    else
      let symbol := extract_symbol pair
      if active_pos > 0 then
        some (pid, close_position_by_position_id "sell" active_pos paper_trade
          api_key api_secret url pid symbol timestamp http)
      else if active_pos < 0 then
        some (pid, close_position_by_position_id "buy" (|active_pos|) paper_trade
          api_key api_secret url pid symbol timestamp http)
      else none

/-- The close_all_positions loop over the listed records, accumulating the
results list and concatenating the request traces. -/
def close_all_go (url api_key api_secret : String) (paper_trade : Bool)
    (timestamp : Int) (http : CloseBody → Except String Json) :
    List Position → List (String × CloseResult) × List CloseBody
  | [] => ([], [])
  | pos :: rest =>
    match close_all_step url api_key api_secret paper_trade timestamp http pos with
    | none => close_all_go url api_key api_secret paper_trade timestamp http rest
    | some (pid, r, trace) =>
      let tail := close_all_go url api_key api_secret paper_trade timestamp http rest
      ((pid, r) :: tail.1, trace ++ tail.2)

/-- Embedding of close_all_positions (Dashboard.py lines 120-168).  The
outcome of the list_positions call is the `all_positions` argument: `none`
models a failed listing (list_positions returned None) and `some ps` a
decoded listing; `if not all_positions: return []` makes both None and the
empty listing return an empty results list at once. -/
def close_all_positions (url api_key api_secret : String)
    (paper_trade : Bool) (all_positions : Option (List Position))
    (timestamp : Int) (http : CloseBody → Except String Json) :
    List (String × CloseResult) × List CloseBody :=
  match all_positions with
  | none => ([], [])
  | some ps =>
    if ps.isEmpty then ([], [])
    else close_all_go url api_key api_secret paper_trade timestamp http ps

/-
  Theorems.
-/

/-- With paper_trade false, the trace of a close_position_by_position_id
call is exactly the one body it builds. -/
lemma close_position_trace (BUY_OR_SELL : String) (quantity : Rat)
    (api_key api_secret url : String) (position_id symbol : String)
    (timestamp : Int) (http : CloseBody → Except String Json) :
    (close_position_by_position_id BUY_OR_SELL quantity false api_key api_secret url
      position_id symbol timestamp http).2
      = [mkCloseBody BUY_OR_SELL quantity position_id symbol timestamp] := by
  unfold close_position_by_position_id
  rw [if_neg Bool.false_ne_true]
  dsimp only
  cases http (mkCloseBody BUY_OR_SELL quantity position_id symbol timestamp) with
  | error e => rfl
  | ok response_json =>
    cases response_json with
    | obj fields =>
      dsimp only
      split <;> rfl
    | null => rfl
    | bool b => rfl
    | num q => rfl
    | str s => rfl
    | arr l => rfl

/-- C1: every close request body that close_position_by_position_id builds
and sends (paper_trade false) has its reduceOnly field equal to true,
whatever the side, quantity, symbol or position id. -/
theorem close_body_reduceOnly_always_true
    (BUY_OR_SELL : String) (quantity : Rat)
    (api_key api_secret url : String) (position_id symbol : String)
    (timestamp : Int) (http : CloseBody → Except String Json)
    (b : CloseBody)
    (hb : b ∈ (close_position_by_position_id BUY_OR_SELL quantity false api_key
      api_secret url position_id symbol timestamp http).2) :
    b.reduceOnly = true := by
  rw [close_position_trace] at hb
  rw [List.mem_singleton] at hb
  subst hb
  rfl

/-- Witness for C1 at a concrete call whose oracle times out. -/
theorem close_body_reduceOnly_always_true_witness :
    mkCloseBody "sell" 1 "p1" "BTC_USDT" 0 ∈
      (close_position_by_position_id "sell" 1 false "key" "secret" "url"
        "p1" "BTC_USDT" 0 (fun _ => .error "timeout")).2 ∧
    (mkCloseBody "sell" 1 "p1" "BTC_USDT" 0).reduceOnly = true := by
  have hmem : mkCloseBody "sell" 1 "p1" "BTC_USDT" 0 ∈
      (close_position_by_position_id "sell" 1 false "key" "secret" "url"
        "p1" "BTC_USDT" 0 (fun _ => .error "timeout")).2 := by
    rw [close_position_trace]
    exact List.mem_singleton.mpr rfl
  exact ⟨hmem, close_body_reduceOnly_always_true "sell" 1 "key" "secret" "url"
    "p1" "BTC_USDT" 0 (fun _ => .error "timeout") _ hmem⟩

/-- C3: with paper_trade true, close_position_by_position_id issues no
request at all (empty trace) and returns the paper_trade result carrying
the given position_id, for all other arguments. -/
theorem close_position_paper_trade_no_network
    (BUY_OR_SELL : String) (quantity : Rat)
    (api_key api_secret url : String) (position_id symbol : String)
    (timestamp : Int) (http : CloseBody → Except String Json) :
    close_position_by_position_id BUY_OR_SELL quantity true api_key api_secret url
      position_id symbol timestamp http = (.paper_trade position_id, []) := rfl

/-- C6: when the listing step fails (None) or returns an empty list,
close_all_positions returns an empty results list and issues no close
request. -/
theorem close_all_empty_or_failed_listing
    (url api_key api_secret : String) (paper_trade : Bool) (timestamp : Int)
    (http : CloseBody → Except String Json) :
    close_all_positions url api_key api_secret paper_trade none timestamp http
      = ([], []) ∧
    close_all_positions url api_key api_secret paper_trade (some []) timestamp http
      = ([], []) :=
  ⟨rfl, rfl⟩

/-- A position with a present non-empty id and positive active_pos makes the
loop close with side sell and quantity active_pos. -/
lemma close_all_step_eq_pos
    {url api_key api_secret : String} {paper_trade : Bool} {timestamp : Int}
    {http : CloseBody → Except String Json} {pos : Position} {pid : String}
    (hid : pos.id = some pid) (hpid : pid ≠ "")
    (h : 0 < (pos.active_pos).getD 0) :
    close_all_step url api_key api_secret paper_trade timestamp http pos =
      some (pid, close_position_by_position_id "sell" ((pos.active_pos).getD 0)
        paper_trade api_key api_secret url pid (extract_symbol ((pos.pair).getD ""))
        timestamp http) := by
  unfold close_all_step
  rw [hid]
  dsimp only
  rw [if_neg hpid, if_pos h]

/-- A position with a present non-empty id and negative active_pos makes the
loop close with side buy and the absolute value as quantity. -/
lemma close_all_step_eq_neg
    {url api_key api_secret : String} {paper_trade : Bool} {timestamp : Int}
    {http : CloseBody → Except String Json} {pos : Position} {pid : String}
    (hid : pos.id = some pid) (hpid : pid ≠ "")
    (h : (pos.active_pos).getD 0 < 0) :
    close_all_step url api_key api_secret paper_trade timestamp http pos =
      some (pid, close_position_by_position_id "buy" (|(pos.active_pos).getD 0|)
        paper_trade api_key api_secret url pid (extract_symbol ((pos.pair).getD ""))
        timestamp http) := by
  unfold close_all_step
  rw [hid]
  dsimp only
  rw [if_neg hpid, if_neg (not_lt.mpr h.le), if_pos h]

/-- A position with zero active_pos is skipped by the loop. -/
lemma close_all_step_eq_zero
    {url api_key api_secret : String} {paper_trade : Bool} {timestamp : Int}
    {http : CloseBody → Except String Json} {pos : Position} {pid : String}
    (hid : pos.id = some pid) (hpid : pid ≠ "")
    (h : (pos.active_pos).getD 0 = 0) :
    close_all_step url api_key api_secret paper_trade timestamp http pos = none := by
  unfold close_all_step
  rw [hid]
  dsimp only
  rw [if_neg hpid, if_neg (by simp [h]), if_neg (by simp [h])]

/-- C2: for a position record with a present non-empty id, close_all_step
derives side sell with quantity equal to active_pos when active_pos is
positive, side buy with the absolute value of active_pos as quantity when
negative, and skips the record (no close attempted) when active_pos is
zero. -/
theorem close_all_step_side_and_quantity
    (url api_key api_secret : String) (paper_trade : Bool) (timestamp : Int)
    (http : CloseBody → Except String Json) (pos : Position) (pid : String)
    (hid : pos.id = some pid) (hpid : pid ≠ "") :
    (0 < (pos.active_pos).getD 0 →
      close_all_step url api_key api_secret paper_trade timestamp http pos =
        some (pid, close_position_by_position_id "sell" ((pos.active_pos).getD 0)
          paper_trade api_key api_secret url pid (extract_symbol ((pos.pair).getD ""))
          timestamp http)) ∧
    ((pos.active_pos).getD 0 < 0 →
      close_all_step url api_key api_secret paper_trade timestamp http pos =
        some (pid, close_position_by_position_id "buy" (|(pos.active_pos).getD 0|)
          paper_trade api_key api_secret url pid (extract_symbol ((pos.pair).getD ""))
          timestamp http)) ∧
    ((pos.active_pos).getD 0 = 0 →
      close_all_step url api_key api_secret paper_trade timestamp http pos = none) :=
  ⟨fun h => close_all_step_eq_pos hid hpid h,
   fun h => close_all_step_eq_neg hid hpid h,
   fun h => close_all_step_eq_zero hid hpid h⟩

/-- Witness for C2 at a long position of 0.002 on pair B-BTC_USDT. -/
theorem close_all_step_side_and_quantity_witness :
    (Position.mk (some "p1") (some 0.002) (some "B-BTC_USDT")).id = some "p1" ∧
    ("p1" : String) ≠ "" ∧
    (0 : ℚ) < ((Position.mk (some "p1") (some 0.002) (some "B-BTC_USDT")).active_pos).getD 0 ∧
    close_all_step "url" "key" "secret" false 0 (fun _ => .error "timeout")
        (Position.mk (some "p1") (some 0.002) (some "B-BTC_USDT")) =
      some ("p1", close_position_by_position_id "sell"
        (((Position.mk (some "p1") (some 0.002) (some "B-BTC_USDT")).active_pos).getD 0)
        false "key" "secret" "url" "p1"
        (extract_symbol (((Position.mk (some "p1") (some 0.002) (some "B-BTC_USDT")).pair).getD ""))
        0 (fun _ => .error "timeout")) := by
  have h : (0 : ℚ) <
      ((Position.mk (some "p1") (some 0.002) (some "B-BTC_USDT")).active_pos).getD 0 := by
    norm_num [Option.getD_some]
  exact ⟨rfl, by decide, h,
    (close_all_step_side_and_quantity "url" "key" "secret" false 0
      (fun _ => .error "timeout") _ "p1" rfl (by decide)).1 h⟩

/-- C4: for a non-paper-trade call, a 2xx response whose JSON object has a
non-empty string under the message key yields a success result; a response
object without a message key, or with an empty message string, yields a
fail result; and any raised network or HTTP error (timeout, non-2xx
status) yields an error result carrying the exception text, the function
returning normally in every case. -/
theorem close_position_response_mapping
    (BUY_OR_SELL : String) (quantity : Rat) (api_key api_secret url : String)
    (position_id symbol : String) (timestamp : Int) :
    (∀ (fields : List (String × Json)) (s : String),
      dictGet fields "message" = some (.str s) → s ≠ "" →
      (close_position_by_position_id BUY_OR_SELL quantity false api_key api_secret url
        position_id symbol timestamp (fun _ => .ok (.obj fields))).1
        = .success (.obj fields)) ∧
    (∀ fields : List (String × Json),
      dictGet fields "message" = none ∨ dictGet fields "message" = some (.str "") →
      (close_position_by_position_id BUY_OR_SELL quantity false api_key api_secret url
        position_id symbol timestamp (fun _ => .ok (.obj fields))).1
        = .fail (.obj fields)) ∧
    (∀ e : String,
      (close_position_by_position_id BUY_OR_SELL quantity false api_key api_secret url
        position_id symbol timestamp (fun _ => .error e)).1 = .error e) := by
  refine ⟨fun fields s hmsg hs => ?_, fun fields hmsg => ?_, fun e => ?_⟩
  · unfold close_position_by_position_id
    rw [if_neg Bool.false_ne_true]
    dsimp only
    have ht : optTruthy (dictGet fields "message") = true := by
      rw [hmsg]
      show (!s.isEmpty) = true
      cases hse : s.isEmpty
      · rfl
      · exact absurd (String.isEmpty_iff s |>.mp hse) hs
    rw [if_pos ht]
  · unfold close_position_by_position_id
    rw [if_neg Bool.false_ne_true]
    dsimp only
    have ht : optTruthy (dictGet fields "message") = false := by
      rcases hmsg with h | h
      · rw [h]; rfl
      · rw [h]; rfl
    rw [if_neg (by simp [ht])]
  · unfold close_position_by_position_id
    rw [if_neg Bool.false_ne_true]

/-- Witness for C4: a message of ok yields success, an empty response
object yields fail, a timeout yields error. -/
theorem close_position_response_mapping_witness :
    (dictGet [("message", Json.str "ok")] "message" = some (.str "ok") ∧
      ("ok" : String) ≠ "" ∧
      (close_position_by_position_id "sell" 1 false "key" "secret" "url" "p1" "BTC_USDT" 0
        (fun _ => .ok (.obj [("message", Json.str "ok")]))).1
        = .success (.obj [("message", Json.str "ok")])) ∧
    (dictGet ([] : List (String × Json)) "message" = none ∧
      (close_position_by_position_id "sell" 1 false "key" "secret" "url" "p1" "BTC_USDT" 0
        (fun _ => .ok (.obj []))).1 = .fail (.obj [])) ∧
    (close_position_by_position_id "sell" 1 false "key" "secret" "url" "p1" "BTC_USDT" 0
      (fun _ => .error "timeout")).1 = .error "timeout" := by
  refine ⟨⟨rfl, by decide, ?_⟩, ⟨rfl, ?_⟩, ?_⟩
  · exact (close_position_response_mapping "sell" 1 "key" "secret" "url"
      "p1" "BTC_USDT" 0).1 _ _ rfl (by decide)
  · exact (close_position_response_mapping "sell" 1 "key" "secret" "url"
      "p1" "BTC_USDT" 0).2.1 [] (Or.inl rfl)
  · exact (close_position_response_mapping "sell" 1 "key" "secret" "url"
      "p1" "BTC_USDT" 0).2.2 "timeout"

/-- C5: the symbol used for a close request is the pair with a leading
literal B- removed when the pair starts with B-, and the pair unchanged
otherwise; in particular B-BTC_USDT becomes BTC_USDT and ETH_USDT stays
ETH_USDT. -/
theorem extract_symbol_strips_B_dash (pair s : String) :
    (pair = "B-" ++ s → extract_symbol pair = s) ∧
    (py_startswith pair "B-" = false → extract_symbol pair = pair) ∧
    extract_symbol "B-BTC_USDT" = "BTC_USDT" ∧
    extract_symbol "ETH_USDT" = "ETH_USDT" := by
  have hstrip : ∀ t : String, extract_symbol ("B-" ++ t) = t := by
    intro t
    unfold extract_symbol
    have hpre : py_startswith ("B-" ++ t) "B-" = true := by
      unfold py_startswith
      simp only [ List.isPrefixOf_iff_prefix, String.data_append]
      exact List.prefix_append _ _
    rw [if_pos hpre]
    apply String.ext
    rw [String.data_drop, String.data_append]
    rfl
  refine ⟨fun h => ?_, fun h => ?_, ?_, ?_⟩
  · rw [h]; exact hstrip s
  · unfold extract_symbol; rw [if_neg (by simp [h])]
  · have : ("B-BTC_USDT" : String) = "B-" ++ "BTC_USDT" := by decide
    rw [this]; exact hstrip "BTC_USDT"
  · unfold extract_symbol; rw [if_neg (by decide)]

/-- Witness for C5 at the two pairs named by the spec. -/
theorem extract_symbol_strips_B_dash_witness :
    (("B-BTC_USDT" : String) = "B-" ++ "BTC_USDT" ∧
      extract_symbol "B-BTC_USDT" = "BTC_USDT") ∧
    (py_startswith "ETH_USDT" "B-" = false ∧
      extract_symbol "ETH_USDT" = "ETH_USDT") :=
  ⟨⟨by decide, (extract_symbol_strips_B_dash "B-BTC_USDT" "BTC_USDT").1 (by decide)⟩,
   ⟨by decide, (extract_symbol_strips_B_dash "ETH_USDT" "").2.1 (by decide)⟩⟩

/-- The empty pair string has no B- to strip. -/
lemma extract_symbol_empty : extract_symbol "" = "" := rfl

/-- close_all_positions on a decoded listing reduces to the loop: the
empty-listing early return and the loop over an empty listing agree. -/
lemma close_all_positions_some (url api_key api_secret : String)
    (paper_trade : Bool) (timestamp : Int)
    (http : CloseBody → Except String Json) (ps : List Position) :
    close_all_positions url api_key api_secret paper_trade (some ps) timestamp http
      = close_all_go url api_key api_secret paper_trade timestamp http ps := by
  cases ps with
  | nil => rfl
  | cons pos rest => rfl

/-- The results list of the loop is the filterMap of the per-position step
over the listing, in listing order. -/
lemma close_all_go_results (url api_key api_secret : String)
    (paper_trade : Bool) (timestamp : Int)
    (http : CloseBody → Except String Json) (ps : List Position) :
    (close_all_go url api_key api_secret paper_trade timestamp http ps).1
      = ps.filterMap (fun pos =>
          (close_all_step url api_key api_secret paper_trade timestamp http pos).map
            (fun pr => (pr.1, pr.2.1))) := by
  induction ps with
  | nil => rfl
  | cons pos rest ih =>
    unfold close_all_go
    cases hstep : close_all_step url api_key api_secret paper_trade timestamp http pos with
    | none =>
      rw [List.filterMap_cons, hstep]
      dsimp only [Option.map]
      exact ih
    | some pr =>
      obtain ⟨pid, r, trace⟩ := pr
      rw [List.filterMap_cons, hstep]
      dsimp only [Option.map]
      exact congrArg (List.cons (pid, r)) ih

/-- The step treats a record as eligible exactly when its id is present
and non-empty and its active_pos defaults to a nonzero value. -/
lemma close_all_step_isSome (url api_key api_secret : String)
    (paper_trade : Bool) (timestamp : Int)
    (http : CloseBody → Except String Json) (pos : Position) :
    (close_all_step url api_key api_secret paper_trade timestamp http pos).isSome = true
      ↔ ((∃ pid, pos.id = some pid ∧ pid ≠ "") ∧ (pos.active_pos).getD 0 ≠ 0) := by
  cases hid : pos.id with
  | none =>
    unfold close_all_step
    rw [hid]
    simp
  | some pid =>
    by_cases hpid : pid = ""
    · subst hpid
      unfold close_all_step
      rw [hid]
      dsimp only
      rw [if_pos rfl]
      simp [hid]
    · rcases lt_trichotomy ((pos.active_pos).getD 0) 0 with hlt | heq | hgt
      · rw [close_all_step_eq_neg hid hpid hlt]
        simp [hid, hpid, hlt.ne]
      · rw [close_all_step_eq_zero hid hpid heq]
        simp [hid, heq]
      · rw [close_all_step_eq_pos hid hpid hgt]
        simp [hid, hpid, hgt.ne']

/-- C7: close_all_positions attempts exactly one close per listed position
with a present non-empty id and nonzero active_pos, in listing order,
appending one (position_id, result) entry per attempted close and skipping
all other records; on the listing p1 with 0.002, p2 with minus 1.5, p3
with 0 it attempts exactly p1 sell 0.002 and p2 buy 1.5, skipping p3. -/
theorem close_all_one_close_per_eligible_position
    (url api_key api_secret : String) (paper_trade : Bool) (timestamp : Int)
    (http : CloseBody → Except String Json) :
    (∀ ps : List Position,
      (close_all_positions url api_key api_secret paper_trade (some ps) timestamp http).1
        = ps.filterMap (fun pos =>
            (close_all_step url api_key api_secret paper_trade timestamp http pos).map
              (fun pr => (pr.1, pr.2.1)))) ∧
    (∀ pos : Position,
      (close_all_step url api_key api_secret paper_trade timestamp http pos).isSome = true
        ↔ ((∃ pid, pos.id = some pid ∧ pid ≠ "") ∧ (pos.active_pos).getD 0 ≠ 0)) ∧
    (close_all_positions url api_key api_secret paper_trade
        (some [Position.mk (some "p1") (some 0.002) none,
               Position.mk (some "p2") (some (-1.5)) none,
               Position.mk (some "p3") (some 0) none]) timestamp http).1
      = [("p1", (close_position_by_position_id "sell" 0.002 paper_trade api_key api_secret
            url "p1" "" timestamp http).1),
         ("p2", (close_position_by_position_id "buy" 1.5 paper_trade api_key api_secret
            url "p2" "" timestamp http).1)] := by
  refine ⟨fun ps => ?_, fun pos => ?_, ?_⟩
  · rw [close_all_positions_some, close_all_go_results]
  · exact close_all_step_isSome url api_key api_secret paper_trade timestamp http pos
  · have h1 : close_all_step url api_key api_secret paper_trade timestamp http
        (Position.mk (some "p1") (some 0.002) none)
        = some ("p1", close_position_by_position_id "sell" 0.002 paper_trade
            api_key api_secret url "p1" "" timestamp http) := by
      rw [close_all_step_eq_pos
        (show (Position.mk (some "p1") (some (0.002 : ℚ)) none).id = some "p1" from rfl)
        (by decide) (by norm_num [Option.getD_some])]
      simp only [Option.getD_some, Option.getD_none, extract_symbol_empty]
    have habs : |((-1.5 : ℚ))| = 1.5 := by
      rw [abs_of_neg (by norm_num)]
      norm_num
    have h2 : close_all_step url api_key api_secret paper_trade timestamp http
        (Position.mk (some "p2") (some (-1.5)) none)
        = some ("p2", close_position_by_position_id "buy" 1.5 paper_trade
            api_key api_secret url "p2" "" timestamp http) := by
      rw [close_all_step_eq_neg
        (show (Position.mk (some "p2") (some ((-1.5) : ℚ)) none).id = some "p2" from rfl)
        (by decide) (by norm_num [Option.getD_some])]
      simp only [Option.getD_some, Option.getD_none, extract_symbol_empty, habs]
    have h3 : close_all_step url api_key api_secret paper_trade timestamp http
        (Position.mk (some "p3") (some 0) none) = none :=
      close_all_step_eq_zero
        (show (Position.mk (some "p3") (some (0 : ℚ)) none).id = some "p3" from rfl)
        (by decide) (by norm_num [Option.getD_some])
    rw [close_all_positions_some]
    simp only [close_all_go, h1, h2, h3]

/-- Witness for C7: the eligibility test applied to the first position of
the listing named by the spec. -/
theorem close_all_one_close_per_eligible_position_witness :
    ((∃ pid, (Position.mk (some "p1") (some 0.002) none).id = some pid ∧ pid ≠ "") ∧
      ((Position.mk (some "p1") (some 0.002) none).active_pos).getD 0 ≠ 0) ∧
    (close_all_step "url" "key" "secret" false 0 (fun _ => .error "timeout")
      (Position.mk (some "p1") (some 0.002) none)).isSome = true := by
  have h : (∃ pid, (Position.mk (some "p1") (some 0.002) none).id = some pid ∧ pid ≠ "") ∧
      ((Position.mk (some "p1") (some 0.002) none).active_pos).getD 0 ≠ 0 :=
    ⟨⟨"p1", rfl, by decide⟩, by norm_num [Option.getD_some]⟩
  exact ⟨h, ((close_all_one_close_per_eligible_position "url" "key" "secret" false 0
    (fun _ => .error "timeout")).2.1 _).mpr h⟩

/-- C9: a record with a present non-empty id but no active_pos key defaults
to exposure zero and is skipped: no close is attempted and no result entry
is appended for it. -/
theorem close_all_missing_active_pos_skipped
    (url api_key api_secret : String) (paper_trade : Bool) (timestamp : Int)
    (http : CloseBody → Except String Json) (pos : Position) (pid : String)
    (hap : pos.active_pos = none) (hid : pos.id = some pid) (hpid : pid ≠ "") :
    close_all_step url api_key api_secret paper_trade timestamp http pos = none ∧
    close_all_positions url api_key api_secret paper_trade (some [pos]) timestamp http
      = ([], []) := by
  have hz : (pos.active_pos).getD 0 = 0 := by rw [hap]; rfl
  have hstep : close_all_step url api_key api_secret paper_trade timestamp http pos = none :=
    close_all_step_eq_zero hid hpid hz
  refine ⟨hstep, ?_⟩
  rw [close_all_positions_some]
  simp only [close_all_go, hstep]

/-- Witness for C9 at a record with id p1 and no active_pos key. -/
theorem close_all_missing_active_pos_skipped_witness :
    (Position.mk (some "p1") none (some "ETH_USDT")).active_pos = none ∧
    (Position.mk (some "p1") none (some "ETH_USDT")).id = some "p1" ∧
    ("p1" : String) ≠ "" ∧
    (close_all_step "url" "key" "secret" false 0 (fun _ => .error "timeout")
        (Position.mk (some "p1") none (some "ETH_USDT")) = none ∧
      close_all_positions "url" "key" "secret" false
        (some [Position.mk (some "p1") none (some "ETH_USDT")]) 0
        (fun _ => .error "timeout") = ([], [])) :=
  ⟨rfl, rfl, by decide,
    close_all_missing_active_pos_skipped "url" "key" "secret" false 0
      (fun _ => .error "timeout") _ "p1" rfl rfl (by decide)⟩

/-- C10: a record with a present non-empty id and nonzero active_pos but no
pair key is still closed, with the empty string as the symbol of the close
request. -/
theorem close_all_missing_pair_empty_symbol
    (url api_key api_secret : String) (paper_trade : Bool) (timestamp : Int)
    (http : CloseBody → Except String Json) (pos : Position) (pid : String)
    (hpair : pos.pair = none) (hid : pos.id = some pid) (hpid : pid ≠ "") :
    (0 < (pos.active_pos).getD 0 →
      close_all_step url api_key api_secret paper_trade timestamp http pos =
        some (pid, close_position_by_position_id "sell" ((pos.active_pos).getD 0)
          paper_trade api_key api_secret url pid "" timestamp http)) ∧
    ((pos.active_pos).getD 0 < 0 →
      close_all_step url api_key api_secret paper_trade timestamp http pos =
        some (pid, close_position_by_position_id "buy" (|(pos.active_pos).getD 0|)
          paper_trade api_key api_secret url pid "" timestamp http)) ∧
    (∀ (side : String) (qty : Rat) (b : CloseBody),
      b ∈ (close_position_by_position_id side qty false api_key api_secret url
        pid "" timestamp http).2 → b.symbol = "") := by
  have hsym : extract_symbol ((pos.pair).getD "") = "" := by rw [hpair]; rfl
  refine ⟨fun h => ?_, fun h => ?_, fun side qty b hb => ?_⟩
  · rw [close_all_step_eq_pos hid hpid h, hsym]
  · rw [close_all_step_eq_neg hid hpid h, hsym]
  · rw [close_position_trace, List.mem_singleton] at hb
    subst hb
    rfl

/-- Witness for C10 at a long position of 2 with no pair key. -/
theorem close_all_missing_pair_empty_symbol_witness :
    (Position.mk (some "p1") (some 2) none).pair = none ∧
    (Position.mk (some "p1") (some 2) none).id = some "p1" ∧
    ("p1" : String) ≠ "" ∧
    (0 : ℚ) < ((Position.mk (some "p1") (some 2) none).active_pos).getD 0 ∧
    close_all_step "url" "key" "secret" false 0 (fun _ => .error "timeout")
        (Position.mk (some "p1") (some 2) none)
      = some ("p1", close_position_by_position_id "sell"
          (((Position.mk (some "p1") (some 2) none).active_pos).getD 0)
          false "key" "secret" "url" "p1" "" 0 (fun _ => .error "timeout")) := by
  have h : (0 : ℚ) < ((Position.mk (some "p1") (some 2) none).active_pos).getD 0 := by
    norm_num [Option.getD_some]
  exact ⟨rfl, rfl, by decide, h,
    (close_all_missing_pair_empty_symbol "url" "key" "secret" false 0
      (fun _ => .error "timeout") _ "p1" rfl rfl (by decide)).1 h⟩

/-- A lookup in the hex digit table stays in the table: in range it is a
member, out of range it falls back to the digit zero. -/
lemma hexChar_mem (n : Nat) : hexChar n ∈ hexDigits := by
  unfold hexChar List.getD
  cases hg : hexDigits.get? n with
  | none => exact List.mem_cons_self _ _
  | some c =>
    rw [Option.getD_some]
    exact List.get?_mem hg

/-- Both characters rendered for a byte are hex digits. -/
lemma mem_byteToHex (b : Nat) (c : Char) (hc : c ∈ byteToHex b) : c ∈ hexDigits := by
  unfold byteToHex at hc
  rcases List.mem_cons.mp hc with h | h
  · rw [h]; exact hexChar_mem _
  · rcases List.mem_cons.mp h with h2 | h2
    · rw [h2]; exact hexChar_mem _
    · exact absurd h2 (List.not_mem_nil c)

/-- Every character of the hex rendering of a byte sequence is a lowercase
hex digit. -/
lemma mem_hexBytes (bs : List Nat) (c : Char)
    (hc : c ∈ bs.foldr (fun b acc => byteToHex b ++ acc) []) : c ∈ hexDigits := by
  induction bs with
  | nil => exact absurd hc (List.not_mem_nil c)
  | cons b rest ih =>
    rw [List.foldr_cons] at hc
    rcases List.mem_append.mp hc with h | h
    · exact mem_byteToHex b c h
    · exact ih h

/-- C8: getSignature is deterministic — identical body strings under an
identical secret give identical signatures — and the signature is the
lowercase hexadecimal HMAC-SHA256 digest of the exact UTF-8 bytes of the
body keyed by the secret, every output character drawn from the sixteen
lowercase hex digits. -/
theorem getSignature_deterministic_hmac_hex (secret body1 body2 : String)
    (h : body1 = body2) :
    getSignature body1 secret = getSignature body2 secret ∧
    getSignature body1 secret
      = hexdigest (hmacSha256 (strBytes secret) (strBytes body1)) ∧
    ∀ c ∈ (getSignature body1 secret).data, c ∈ hexDigits := by
  subst h
  exact ⟨rfl, rfl, fun c hc => mem_hexBytes _ c hc⟩

/-- Witness for C8 at a concrete body and secret. -/
theorem getSignature_deterministic_hmac_hex_witness :
    ("body" : String) = "body" ∧
    getSignature "body" "secret" = getSignature "body" "secret" :=
  ⟨rfl, (getSignature_deterministic_hmac_hex "secret" "body" "body" rfl).1⟩

end MonitorUI
